import Mathlib

/-!
Verification of the Afnan-Shop inventory and sales application
(source: src/app.js) against its natural-language specification.

The file gives a shallow embedding of the application's core logic.
Modelling conventions:
* Records stored in localStorage become Lean structures; JavaScript
  string fields become String, numeric fields (prices, year) become Int
  (every claim about them concerns the literal arithmetic expressions
  computed by the code, which are exact for any numeric type).
* The persisted localStorage state is the pair of collections
  (wheels, sales); every handler reads it, possibly writes it, and the
  Lean function returns the new state together with the observable
  outcome (the alert messages the code shows, the confirmation prompts
  it raises).
* parseFloat / parseInt results are Option Int (none models NaN).
* confirm() dialogs become Bool parameters giving the user's answer;
  whether a given dialog was raised is reported in the result where a
  claim depends on it.
* JSON.parse results for the backup-import payload are modelled by
  ImportField: absent covers a missing or falsy field, malformed a
  truthy non-array value, and list an array of records; a payload that
  fails to parse at all (or is null, so that property access throws
  inside the try block) is modelled by Option.none.
* For loadWheels / loadSales the stored string is modelled by
  StoredData: absent (getItem returned null or an empty, falsy string),
  unparseable (JSON.parse throws a SyntaxError), or parsed.
-/

namespace AfnanShop

/-- A wheel (vehicle) record, per the storage structure comment and
seedDemoData in src/app.js. -/
structure Wheel where
  id : String
  model : String
  year : Int
  vehicleNumber : String
  color : String
  chassisNumber : String
  engineNumber : String
  notes : String
  purchasePrice : Int
  addedDate : String
deriving DecidableEq, Repr

/-- A sale record, per the storage structure comment in src/app.js. -/
structure Sale where
  id : String
  wheelId : String
  saleDate : String
  sellingPrice : Int
  paymentMethod : String
  buyerName : String
  buyerAddress : String
  buyerNIC : String
  buyerPhone : String
  saleNotes : String
deriving DecidableEq, Repr

/-- The persisted application state: the two localStorage collections
threeWheel_items and threeWheel_sales. -/
structure AppState where
  wheels : List Wheel
  sales : List Sale
deriving DecidableEq, Repr

/-- The stored string for one collection, as seen by loadWheels and
loadSales: absent (getItem gave null, or an empty falsy string),
present but unparseable (JSON.parse throws), or parseable to a list. -/
inductive StoredData (α : Type) where
  | absent : StoredData α
  | unparseable : StoredData α
  | parsed : α → StoredData α
deriving DecidableEq, Repr

/-- loadWheels (src/app.js lines 19-22):
data ? JSON.parse(data) : [].  A falsy stored value yields the empty
list; JSON.parse of an unparseable string throws, which propagates out
of loadWheels as an uncaught exception (modelled as Except.error). -/
def loadWheels : StoredData (List Wheel) → Except Unit (List Wheel)
  | .absent => .ok []
  | .unparseable => .error ()
  | .parsed v => .ok v

/-- loadSales (src/app.js lines 36-39), identical to loadWheels. -/
def loadSales : StoredData (List Sale) → Except Unit (List Sale)
  | .absent => .ok []
  | .unparseable => .error ()
  | .parsed v => .ok v

/-- The sale-form fields read at the top of handleSaleSubmit
(src/app.js lines 496-504).  sellingPrice is the parseFloat result
(none models NaN). -/
structure SaleFields where
  wheelId : String
  sellingPrice : Option Int
  paymentMethod : String
  buyerName : String
  buyerAddress : String
  buyerNIC : String
  buyerPhone : String
  saleDate : String
  saleNotes : String
deriving DecidableEq, Repr

/-- The field-validation cascade of handleSaleSubmit (src/app.js lines
507-545): the first failing check determines the alert message, in the
exact source order; none means every field check passed. -/
def validateSaleFields (f : SaleFields) : Option String :=
  if f.wheelId = "" then some "Please select a wheel"
  else if (match f.sellingPrice with | none => true | some p => p ≤ 0)
    then some "Selling price must be greater than 0"
  else if f.paymentMethod = "" then some "Payment method is required"
  else if f.buyerName = "" then some "Buyer name is required"
  else if f.buyerAddress = "" then some "Buyer address is required"
  else if f.buyerNIC = "" then some "Buyer NIC number is required"
  else if f.buyerPhone = "" then some "Buyer phone number is required"
  else if f.saleDate = "" then some "Sale date is required"
  else none

/-- Observable outcome of handleSaleSubmit: either an alert rejecting
the submission with the state untouched, or a recorded sale (which the
code appends, saves, and hands to the bill section). -/
inductive SaleOutcome where
  | rejected : String → SaleOutcome
  | recorded : Sale → SaleOutcome
deriving DecidableEq, Repr

/-- handleSaleSubmit (src/app.js lines 493-588).  After field
validation the code re-loads the sales collection and checks
sales.some(sale => sale.wheelId === wheelId) at commit time; on
success it pushes the new sale and saves.  newId stands for the
generateId('sale') result. -/
def handleSaleSubmit (st : AppState) (f : SaleFields) (newId : String) :
    AppState × SaleOutcome :=
  match validateSaleFields f with
  | some msg => (st, .rejected msg)
  | none =>
    if st.sales.any (fun s => s.wheelId == f.wheelId) then
      (st, .rejected "This wheel has already been sold")
    else
      let newSale : Sale :=
        { id := newId, wheelId := f.wheelId, saleDate := f.saleDate,
          sellingPrice := f.sellingPrice.getD 0,
          paymentMethod := f.paymentMethod, buyerName := f.buyerName,
          buyerAddress := f.buyerAddress, buyerNIC := f.buyerNIC,
          buyerPhone := f.buyerPhone, saleNotes := f.saleNotes }
      ({ st with sales := st.sales ++ [newSale] }, .recorded newSale)

/-- The wheel-form fields read at the top of handleWheelSubmit
(src/app.js lines 347-355).  wheelId is the hidden form field (empty
when adding); year and purchasePrice are parseInt / parseFloat results
(none models NaN). -/
structure WheelFields where
  wheelId : String
  model : String
  year : Option Int
  vehicleNumber : String
  color : String
  chassisNumber : String
  engineNumber : String
  purchasePrice : Option Int
  notes : String
deriving DecidableEq, Repr

/-- The field-validation cascade of handleWheelSubmit (src/app.js lines
358-391), first failing check first, in source order. -/
def validateWheelFields (f : WheelFields) : Option String :=
  if f.model = "" then some "Model is required"
  else if (match f.year with
           | none => true
           | some y => y < 1900 ∨ y > 2100)
    then some "Please enter a valid year"
  else if f.vehicleNumber = "" then some "Vehicle Number is required"
  else if f.color = "" then some "Color is required"
  else if f.chassisNumber = "" then some "Chassis Number is required"
  else if f.engineNumber = "" then some "Engine Number is required"
  else if (match f.purchasePrice with | none => true | some p => p ≤ 0)
    then some "Purchase price must be greater than 0"
  else none

/-- The in-place record replacement of the update branch of
handleWheelSubmit (src/app.js lines 397-409): the first wheel whose id
matches is replaced by the spread {...wheels[index], fields}, which
keeps id and addedDate and overwrites everything else. -/
def updateWheelInList (f : WheelFields) : List Wheel → List Wheel
  | [] => []
  | w :: ws =>
    if w.id == f.wheelId then
      { w with
        model := f.model, year := f.year.getD 0,
        vehicleNumber := f.vehicleNumber, color := f.color,
        chassisNumber := f.chassisNumber, engineNumber := f.engineNumber,
        purchasePrice := f.purchasePrice.getD 0, notes := f.notes } :: ws
    else w :: updateWheelInList f ws

/-- handleWheelSubmit (src/app.js lines 344-435).  editing models the
truthiness of the module variable editingWheelId; newId stands for
generateId('wheel') and today for getTodayDate().  The returned Option
String is the alert shown (none: no alert at all — which is what the
code does when the update branch does not find the id). -/
def handleWheelSubmit (st : AppState) (f : WheelFields) (editing : Bool)
    (newId today : String) : AppState × Option String :=
  match validateWheelFields f with
  | some msg => (st, some msg)
  | none =>
    if f.wheelId ≠ "" ∧ editing = true then
      if st.wheels.any (fun w => w.id == f.wheelId) then
        ({ st with wheels := updateWheelInList f st.wheels },
         some "Wheel updated successfully")
      else (st, none)
    else
      let newWheel : Wheel :=
        { id := newId, model := f.model, year := f.year.getD 0,
          vehicleNumber := f.vehicleNumber, color := f.color,
          chassisNumber := f.chassisNumber,
          engineNumber := f.engineNumber, notes := f.notes,
          purchasePrice := f.purchasePrice.getD 0, addedDate := today }
      ({ st with wheels := st.wheels ++ [newWheel] },
       some "Wheel added successfully")

/-- Result of deleteWheel: the new persisted state, whether the
cascade confirmation dialog ("This wheel has been sold. Deleting it
will also remove the sale record. Continue?") was raised, and the
alert shown, if any. -/
structure DeleteResult where
  state : AppState
  promptedCascade : Bool
  alert : Option String
deriving DecidableEq, Repr

/-- deleteWheel (src/app.js lines 312-339).  confirmDelete is the
answer to the first confirm dialog, confirmCascade the answer to the
cascade dialog (only consulted when some sale references the wheel).
With cascade consent the code filters the sales then the wheels and
saves both; without a referencing sale only the wheels are filtered.
Note the code never checks that wheelId exists in the collection. -/
def deleteWheel (st : AppState) (wheelId : String)
    (confirmDelete confirmCascade : Bool) : DeleteResult :=
  if confirmDelete = false then ⟨st, false, none⟩
  else if st.sales.any (fun s => s.wheelId == wheelId) then
    if confirmCascade = false then ⟨st, true, none⟩
    else
      ⟨{ wheels := st.wheels.filter (fun w => !(w.id == wheelId)),
         sales := st.sales.filter (fun s => !(s.wheelId == wheelId)) },
       true, some "Wheel deleted successfully"⟩
  else
    ⟨{ wheels := st.wheels.filter (fun w => !(w.id == wheelId)),
       sales := st.sales },
     false, some "Wheel deleted successfully"⟩

/-- One row of the report: the enriched sale built by renderReport
(src/app.js lines 616-625): {...sale, wheel, model, purchasePrice,
profit}. -/
structure ReportRow where
  sale : Sale
  wheel : Option Wheel
  model : String
  purchasePrice : Int
  profit : Int
deriving DecidableEq, Repr

/-- The enrichment of one sale (src/app.js lines 617-624): resolve the
wheel with wheels.find(w => w.id === sale.wheelId); if missing, model
"Unknown", purchasePrice 0, profit = sellingPrice. -/
def enrichSale (wheels : List Wheel) (sale : Sale) : ReportRow :=
  match wheels.find? (fun w => w.id == sale.wheelId) with
  | some w =>
    { sale := sale, wheel := some w, model := w.model,
      purchasePrice := w.purchasePrice,
      profit := sale.sellingPrice - w.purchasePrice }
  | none =>
    { sale := sale, wheel := none, model := "Unknown",
      purchasePrice := 0, profit := sale.sellingPrice }

/-- The row computation of renderReport (src/app.js lines 604-625):
filter by saleDate >= fromDate when fromDate is truthy (non-empty),
then by saleDate <= toDate when toDate is truthy (JavaScript string
comparison on ISO dates is lexicographic), then enrich each remaining
sale in order. -/
def renderReportRows (wheels : List Wheel) (sales : List Sale)
    (fromDate toDate : String) : List ReportRow :=
  let filtered1 :=
    if fromDate = "" then sales
    else sales.filter (fun s => decide (fromDate ≤ s.saleDate))
  let filtered2 :=
    if toDate = "" then filtered1
    else filtered1.filter (fun s => decide (s.saleDate ≤ toDate))
  filtered2.map (enrichSale wheels)

/-- The summary block rendered at the foot of the report. -/
structure Summary where
  count : Nat
  totalRevenue : Int
  totalCost : Int
  totalProfit : Int
deriving DecidableEq, Repr

/-- The summary computation of renderReport (src/app.js lines
659-663): count is the row count, the totals are reduce-sums over the
rows, and totalProfit is computed as totalRevenue - totalCost. -/
def renderReportSummary (rows : List ReportRow) : Summary :=
  let totalRevenue := rows.foldl (fun sum item => sum + item.sale.sellingPrice) 0
  let totalCost := rows.foldl (fun sum item => sum + item.purchasePrice) 0
  { count := rows.length, totalRevenue := totalRevenue,
    totalCost := totalCost, totalProfit := totalRevenue - totalCost }

/-- One field of the parsed import payload as tested by
handleFileImport (src/app.js lines 815-821): absent covers a missing
or otherwise falsy value (the truthiness guard fails), malformed a
truthy value that Array.isArray rejects, list an array of records. -/
inductive ImportField (α : Type) where
  | absent : ImportField α
  | malformed : ImportField α
  | list : List α → ImportField α
deriving DecidableEq, Repr

/-- The parsed backup payload: the wheels and sales properties plus
the exportDate written by exportToJSON (ignored by import). -/
structure ImportPayload where
  wheels : ImportField Wheel
  sales : ImportField Sale
  exportDate : String
deriving DecidableEq, Repr

/-- handleFileImport (src/app.js lines 802-839).  payload = none
models a file whose JSON.parse throws (or parses to null, so that the
property accesses throw inside the same try block before any save):
the catch alerts and changes nothing.  confirmed is the answer to the
"This will replace all current data" dialog.  Each collection is
replaced exactly when its field is a well-formed array, independently
of the other. -/
def handleFileImport (st : AppState) (payload : Option ImportPayload)
    (confirmed : Bool) : AppState :=
  match payload with
  | none => st
  | some d =>
    if confirmed = false then st
    else
      { wheels := match d.wheels with
                  | .list ws => ws
                  | _ => st.wheels,
        sales := match d.sales with
                 | .list ss => ss
                 | _ => st.sales }

/-- exportToJSON (src/app.js lines 770-789): the exported object is
{wheels: loadWheels(), sales: loadSales(), exportDate}, serialized;
re-parsing it on import yields both collections as well-formed
arrays. -/
def exportToJSON (st : AppState) (exportDate : String) : ImportPayload :=
  { wheels := .list st.wheels, sales := .list st.sales,
    exportDate := exportDate }

/-! Concrete records used by witnesses and counterexamples, in the
style of the seedDemoData fixtures (src/app.js lines 70-151). -/

/-- A concrete wheel record. -/
def wA : Wheel :=
  { id := "w1", model := "Bajaj Auto Rickshaw", year := 2022,
    vehicleNumber := "ABC-1234", color := "Red",
    chassisNumber := "CH123456789", engineNumber := "EN987654321",
    notes := "", purchasePrice := 85000, addedDate := "2024-01-15" }

/-- A concrete sale of wheel w1. -/
def sA : Sale :=
  { id := "s1", wheelId := "w1", saleDate := "2024-02-01",
    sellingPrice := 95000, paymentMethod := "Ready Cash",
    buyerName := "Ahmed Khan", buyerAddress := "123 Main Street",
    buyerNIC := "42101-1234567-1", buyerPhone := "0300-1234567",
    saleNotes := "" }

/-- A second concrete sale that also references wheel w1. -/
def sB : Sale :=
  { id := "s2", wheelId := "w1", saleDate := "2024-03-15",
    sellingPrice := 105000, paymentMethod := "Ready Cash",
    buyerName := "Fatima Ali", buyerAddress := "456 Park Avenue",
    buyerNIC := "35202-9876543-2", buyerPhone := "0312-9876543",
    saleNotes := "" }

/-- An import payload whose sales array holds two sales with the same
wheelId (and no wheels field). -/
def dupPayload : ImportPayload :=
  { wheels := .absent, sales := .list [sA, sB], exportDate := "" }

/-- An import payload with a well-formed wheels array and a malformed
(truthy, non-array) sales field. -/
def mixPayload : ImportPayload :=
  { wheels := .list [wA], sales := .malformed, exportDate := "" }

/-- Fully valid sale-form fields that reference wheel w1. -/
def sfDup : SaleFields :=
  { wheelId := "w1", sellingPrice := some 100000,
    paymentMethod := "Ready Cash", buyerName := "Bilal Hussain",
    buyerAddress := "789 Canal Road", buyerNIC := "61101-1112223-3",
    buyerPhone := "0321-5556667", saleDate := "2024-04-01",
    saleNotes := "" }

/-- Sale-form fields referencing wheel w1 whose buyer name is empty
(so field validation fails before the duplicate-sale check). -/
def sfNoName : SaleFields :=
  { wheelId := "w1", sellingPrice := some 100000,
    paymentMethod := "Ready Cash", buyerName := "",
    buyerAddress := "789 Canal Road", buyerNIC := "61101-1112223-3",
    buyerPhone := "0321-5556667", saleDate := "2024-04-01",
    saleNotes := "" }

/-- Fully valid wheel-form fields whose hidden wheelId field, zz, is
absent from the wheel collection of the fixtures. -/
def wfGhost : WheelFields :=
  { wheelId := "zz", model := "Piaggio Ape", year := some 2021,
    vehicleNumber := "DEF-9012", color := "White",
    chassisNumber := "CH456789123", engineNumber := "EN789123456",
    purchasePrice := some 75000, notes := "" }

/-- C4 (amended): loading a collection whose stored value is absent
yields the empty collection, but an unparseable stored value makes
JSON.parse throw out of the load (there is no try/catch in loadWheels
or loadSales), rather than degrading to the empty collection. -/
theorem load_absent_empty_unparseable_throws :
    loadWheels StoredData.absent = Except.ok [] ∧
    loadSales StoredData.absent = Except.ok [] ∧
    loadWheels StoredData.unparseable = Except.error () ∧
    loadSales StoredData.unparseable = Except.error () ∧
    (∀ v : List Wheel, loadWheels (StoredData.parsed v) = Except.ok v) ∧
    (∀ v : List Sale, loadSales (StoredData.parsed v) = Except.ok v) :=
  ⟨rfl, rfl, rfl, rfl, fun _ => rfl, fun _ => rfl⟩

/-- Counterexample for C4 as stated: on unparseable stored data both
loads produce an error (an uncaught exception), not the empty
collection. -/
theorem load_malformed_counterexample :
    loadWheels StoredData.unparseable ≠ Except.ok [] ∧
    loadSales StoredData.unparseable ≠ Except.ok [] :=
  ⟨fun h => by simp [loadWheels] at h, fun h => by simp [loadSales] at h⟩

/-- C3: deleting a wheel that has a sale, with the delete confirmed
but the cascade not acknowledged, raises the cascade-confirmation
prompt and leaves the state unchanged (no alert is shown, but the
prompt itself is the RequiresConfirmation signal); with the cascade
acknowledged, both the wheel and every sale referencing it are removed
and both collections are saved. -/
theorem deleteWheel_cascade (st : AppState) (v : String)
    (h : st.sales.any (fun s => s.wheelId == v) = true) :
    (deleteWheel st v true false).state = st ∧
    (deleteWheel st v true false).promptedCascade = true ∧
    (deleteWheel st v true false).alert = none ∧
    (deleteWheel st v true true).state.wheels
      = st.wheels.filter (fun w => !(w.id == v)) ∧
    (deleteWheel st v true true).state.sales
      = st.sales.filter (fun s => !(s.wheelId == v)) ∧
    (deleteWheel st v true true).alert = some "Wheel deleted successfully" := by
  unfold deleteWheel
  simp [h]

/-- Witness for C3 at a concrete state holding one wheel and its
sale. -/
theorem deleteWheel_cascade_witness :
    (deleteWheel ⟨[wA], [sA]⟩ "w1" true false).state = ⟨[wA], [sA]⟩ ∧
    (deleteWheel ⟨[wA], [sA]⟩ "w1" true false).promptedCascade = true ∧
    (deleteWheel ⟨[wA], [sA]⟩ "w1" true false).alert = none ∧
    (deleteWheel ⟨[wA], [sA]⟩ "w1" true true).state.wheels
      = List.filter (fun w => !(w.id == "w1")) [wA] ∧
    (deleteWheel ⟨[wA], [sA]⟩ "w1" true true).state.sales
      = List.filter (fun s => !(s.wheelId == "w1")) [sA] ∧
    (deleteWheel ⟨[wA], [sA]⟩ "w1" true true).alert
      = some "Wheel deleted successfully" :=
  deleteWheel_cascade ⟨[wA], [sA]⟩ "w1" (by decide)

/-- C7: every report row resolves its wheel by id; when the wheel
exists the row carries its model and purchase price, when it is
missing the row carries model Unknown and purchase price 0, and in
both cases profit equals sellingPrice minus the purchase price the row
carries (the dangling case is total, not a crash). -/
theorem reportRow_profit_join (wheels : List Wheel) (sale : Sale) :
    (enrichSale wheels sale).profit
      = sale.sellingPrice - (enrichSale wheels sale).purchasePrice ∧
    (∀ w, wheels.find? (fun x => x.id == sale.wheelId) = some w →
      (enrichSale wheels sale).model = w.model ∧
      (enrichSale wheels sale).purchasePrice = w.purchasePrice) ∧
    (wheels.find? (fun x => x.id == sale.wheelId) = none →
      (enrichSale wheels sale).model = "Unknown" ∧
      (enrichSale wheels sale).purchasePrice = 0) := by
  unfold enrichSale
  cases h : wheels.find? (fun x => x.id == sale.wheelId) <;> simp [h]

/-- Witness for C7: the join at a present wheel and at a dangling
sale. -/
theorem reportRow_profit_join_witness :
    ((enrichSale [wA] sA).model = wA.model ∧
      (enrichSale [wA] sA).purchasePrice = wA.purchasePrice) ∧
    ((enrichSale [] sB).model = "Unknown" ∧
      (enrichSale [] sB).purchasePrice = 0) ∧
    (enrichSale [] sB).profit
      = sB.sellingPrice - (enrichSale [] sB).purchasePrice :=
  ⟨(reportRow_profit_join [wA] sA).2.1 wA (by decide),
   (reportRow_profit_join [] sB).2.2 (by decide),
   (reportRow_profit_join [] sB).1⟩

/-- C10: importing the payload produced by exportToJSON (with the
replace-all prompt confirmed) restores both collections exactly —
same records, same order — whatever state the import runs against. -/
theorem export_import_roundtrip (st target : AppState) (d : String) :
    (handleFileImport target (some (exportToJSON st d)) true).wheels
      = st.wheels ∧
    (handleFileImport target (some (exportToJSON st d)) true).sales
      = st.sales ∧
    handleFileImport st (some (exportToJSON st d)) true = st :=
  ⟨rfl, rfl, rfl⟩

/-- A reduce-style left fold of additions equals the sum of the mapped
list. -/
theorem foldl_add_map {α : Type} (g : α → Int) (l : List α) :
    l.foldl (fun s x => s + g x) 0 = (l.map g).sum := by
  rw [← List.foldl_map g (· + ·) l 0, List.sum_eq_foldl]

/-- C6: the report rows are exactly the sales whose saleDate lies in
the requested range under lexicographic string comparison, each bound
applied only when its field is non-empty, enriched in the collection's
original relative order (the map over a filter introduces no
reordering). -/
theorem report_range_filter (wheels : List Wheel) (sales : List Sale)
    (fromDate toDate : String) :
    renderReportRows wheels sales fromDate toDate =
      (sales.filter (fun s =>
        (fromDate == "" || decide (fromDate ≤ s.saleDate)) &&
        (toDate == "" || decide (s.saleDate ≤ toDate)))).map
        (enrichSale wheels) := by
  unfold renderReportRows
  by_cases hf : fromDate = "" <;> by_cases ht : toDate = ""
  · simp [hf, ht]
  · have ht' : (toDate == "") = false := by simp [ht]
    simp [hf, ht, ht']
  · have hf' : (fromDate == "") = false := by simp [hf]
    simp [hf, ht, hf']
  · have hf' : (fromDate == "") = false := by simp [hf]
    have ht' : (toDate == "") = false := by simp [ht]
    simp [hf, ht, hf', ht', List.filter_filter, Bool.and_comm]

/-- C8: with both date fields empty the report has exactly one row per
sale, in order; the summary counts the rows, totals the selling and
purchase prices over them, and its totalProfit is computed exactly as
totalRevenue - totalCost. -/
theorem report_no_bounds_summary (wheels : List Wheel) (sales : List Sale) :
    renderReportRows wheels sales "" "" = sales.map (enrichSale wheels) ∧
    (renderReportRows wheels sales "" "").length = sales.length ∧
    (renderReportSummary (renderReportRows wheels sales "" "")).count
      = sales.length ∧
    (renderReportSummary (renderReportRows wheels sales "" "")).totalRevenue
      = ((renderReportRows wheels sales "" "").map
          (fun r => r.sale.sellingPrice)).sum ∧
    (renderReportSummary (renderReportRows wheels sales "" "")).totalCost
      = ((renderReportRows wheels sales "" "").map
          (fun r => r.purchasePrice)).sum ∧
    (renderReportSummary (renderReportRows wheels sales "" "")).totalProfit
      = (renderReportSummary (renderReportRows wheels sales "" "")).totalRevenue
        - (renderReportSummary (renderReportRows wheels sales "" "")).totalCost := by
  have hrows : renderReportRows wheels sales "" ""
      = sales.map (enrichSale wheels) := by
    unfold renderReportRows
    simp
  refine ⟨hrows, ?_, ?_,
    @foldl_add_map ReportRow (fun r => r.sale.sellingPrice)
      (renderReportRows wheels sales "" ""),
    @foldl_add_map ReportRow (fun r => r.purchasePrice)
      (renderReportRows wheels sales "" ""), rfl⟩
  · rw [hrows, List.length_map]
  · show (renderReportRows wheels sales "" "").length = sales.length
    rw [hrows, List.length_map]

/-- C1 (amended): the one-sale-per-wheel invariant (pairwise distinct
wheelIds in the sales collection) is preserved by every
handleSaleSubmit, whatever its outcome; a confirmed import whose sales
field is a well-formed array replaces the collection with that array
verbatim, enforcing nothing, so after an import the invariant holds
only if the imported array itself satisfies it. -/
theorem recordSale_unique_import_verbatim :
    (∀ (st : AppState) (f : SaleFields) (newId : String),
        (st.sales.map Sale.wheelId).Nodup →
        (((handleSaleSubmit st f newId).1).sales.map Sale.wheelId).Nodup) ∧
    (∀ (st : AppState) (p : ImportPayload) (ss : List Sale),
        p.sales = ImportField.list ss →
        (handleFileImport st (some p) true).sales = ss) := by
  constructor
  · intro st f newId h
    unfold handleSaleSubmit
    cases hv : validateSaleFields f with
    | some msg => simpa using h
    | none =>
      by_cases ha : st.sales.any (fun s => s.wheelId == f.wheelId) = true
      · simpa [ha] using h
      · have ha' : st.sales.any (fun s => s.wheelId == f.wheelId) = false := by
          simpa using ha
        have hnot : f.wheelId ∉ st.sales.map Sale.wheelId := by
          simp only [List.mem_map]
          rintro ⟨s, hs, he⟩
          have hne := List.any_eq_false.mp ha' s hs
          simp at hne
          exact hne he
        simp [ha', List.nodup_append, h, hnot]
  · intro st p ss hp
    unfold handleFileImport
    simp [hp]

/-- Counterexample for C1 as stated: a confirmed import of a payload
whose sales array holds two sales with the same wheelId leaves the
persisted collection with a duplicated wheelId. -/
theorem import_duplicate_sale_counterexample :
    ¬ (((handleFileImport ⟨[], []⟩ (some dupPayload) true).sales.map
        Sale.wheelId).Nodup) := by decide

/-- Witness for C1 (amended): the RecordSale preservation at a
concrete one-sale state, and a concrete verbatim sales replacement. -/
theorem recordSale_unique_import_witness :
    (((handleSaleSubmit ⟨[], [sA]⟩ sfDup "s9").1).sales.map
      Sale.wheelId).Nodup ∧
    (handleFileImport ⟨[], []⟩ (some dupPayload) true).sales = [sA, sB] :=
  ⟨recordSale_unique_import_verbatim.1 ⟨[], [sA]⟩ sfDup "s9" (by decide),
   recordSale_unique_import_verbatim.2 ⟨[], []⟩ dupPayload [sA, sB] rfl⟩

/-- C2 (amended): when some sale already references the submitted
wheelId, handleSaleSubmit never records a sale and leaves the state
untouched; it rejects with the already-sold alert when the form fields
pass validation — when they do not, the first failing field check
rejects first, because the duplicate check runs only after the
validation cascade. -/
theorem recordSale_alreadySold (st : AppState) (f : SaleFields)
    (newId : String)
    (h : st.sales.any (fun s => s.wheelId == f.wheelId) = true) :
    (handleSaleSubmit st f newId).1 = st ∧
    (∀ s, (handleSaleSubmit st f newId).2 ≠ SaleOutcome.recorded s) ∧
    (validateSaleFields f = none →
      (handleSaleSubmit st f newId).2
        = SaleOutcome.rejected "This wheel has already been sold") := by
  unfold handleSaleSubmit
  cases hv : validateSaleFields f with
  | some msg => simp [h]
  | none => simp [h]

/-- Counterexample for C2 as stated: with wheel w1 already sold but an
empty buyer name, the submission is rejected by field validation, not
with the already-sold alert — the duplicate check is not
unconditional. -/
theorem recordSale_alreadySold_counterexample :
    (AppState.mk [] [sA]).sales.any
      (fun s => s.wheelId == sfNoName.wheelId) = true ∧
    (handleSaleSubmit ⟨[], [sA]⟩ sfNoName "s9").2
      = SaleOutcome.rejected "Buyer name is required" ∧
    (handleSaleSubmit ⟨[], [sA]⟩ sfNoName "s9").2
      ≠ SaleOutcome.rejected "This wheel has already been sold" := by decide

/-- Witness for C2 (amended): valid fields against an already-sold
wheel produce the already-sold rejection and an unchanged state. -/
theorem recordSale_alreadySold_witness :
    (handleSaleSubmit ⟨[], [sA]⟩ sfDup "s9").1 = ⟨[], [sA]⟩ ∧
    (handleSaleSubmit ⟨[], [sA]⟩ sfDup "s9").2
      = SaleOutcome.rejected "This wheel has already been sold" :=
  ⟨(recordSale_alreadySold ⟨[], [sA]⟩ sfDup "s9" (by decide)).1,
   (recordSale_alreadySold ⟨[], [sA]⟩ sfDup "s9" (by decide)).2.2 (by decide)⟩

/-- C5 (amended): on an id absent from both collections neither
operation modifies any collection, but neither fails with a
NotFoundError either: the update branch of handleWheelSubmit silently
does nothing (no alert at all), and deleteWheel reports the
deleted-successfully alert. -/
theorem notFound_silent (st : AppState) (v : String) (f : WheelFields)
    (newId today : String)
    (hw : ∀ w ∈ st.wheels, w.id ≠ v)
    (hs : ∀ s ∈ st.sales, s.wheelId ≠ v)
    (hvf : validateWheelFields f = none)
    (hid : f.wheelId = v) (hne : v ≠ "") :
    handleWheelSubmit st f true newId today = (st, none) ∧
    deleteWheel st v true true
      = ⟨st, false, some "Wheel deleted successfully"⟩ ∧
    deleteWheel st v true false
      = ⟨st, false, some "Wheel deleted successfully"⟩ := by
  subst hid
  have haw : st.wheels.any (fun w => w.id == f.wheelId) = false := by
    rw [List.any_eq_false]
    intro w hwm
    simpa using hw w hwm
  have has : st.sales.any (fun s => s.wheelId == f.wheelId) = false := by
    rw [List.any_eq_false]
    intro s hsm
    simpa using hs s hsm
  have hfw : st.wheels.filter (fun w => !(w.id == f.wheelId)) = st.wheels := by
    rw [List.filter_eq_self]
    intro w hwm
    simpa using hw w hwm
  refine ⟨?_, ?_, ?_⟩
  · unfold handleWheelSubmit
    rw [hvf]
    simp [hne, haw]
  · unfold deleteWheel
    simp [has, hfw]
  · unfold deleteWheel
    simp [has, hfw]

/-- Counterexample for C5 as stated: on the absent id zz, the update
submission yields no alert whatsoever (silently doing nothing), and
the delete reports success — neither fails with a NotFoundError. -/
theorem notFound_counterexample :
    handleWheelSubmit ⟨[wA], [sA]⟩ wfGhost true "n1" "2024-05-01"
      = (⟨[wA], [sA]⟩, none) ∧
    deleteWheel ⟨[wA], [sA]⟩ "zz" true true
      = ⟨⟨[wA], [sA]⟩, false, some "Wheel deleted successfully"⟩ := by decide

/-- Witness for C5 (amended) at the concrete absent id zz. -/
theorem notFound_silent_witness :
    handleWheelSubmit ⟨[wA], [sA]⟩ wfGhost true "n1" "2024-05-01"
      = (⟨[wA], [sA]⟩, none) ∧
    deleteWheel ⟨[wA], [sA]⟩ "zz" true true
      = ⟨⟨[wA], [sA]⟩, false, some "Wheel deleted successfully"⟩ ∧
    deleteWheel ⟨[wA], [sA]⟩ "zz" true false
      = ⟨⟨[wA], [sA]⟩, false, some "Wheel deleted successfully"⟩ :=
  notFound_silent ⟨[wA], [sA]⟩ "zz" wfGhost "n1" "2024-05-01"
    (by decide) (by decide) (by decide) rfl (by decide)

/-- C9: a payload that fails to parse (or whose property access
throws inside the try block) leaves everything untouched, as does a
declined confirmation; on a confirmed import each collection is
replaced exactly when its field is a well-formed array, independently
of the other collection's field, and is left untouched when its field
is absent, falsy or not an array. -/
theorem import_per_collection (st : AppState) (p : ImportPayload) :
    (∀ c, handleFileImport st none c = st) ∧
    (handleFileImport st (some p) false = st) ∧
    (∀ ws, p.wheels = ImportField.list ws →
      (handleFileImport st (some p) true).wheels = ws) ∧
    ((∀ ws, p.wheels ≠ ImportField.list ws) →
      (handleFileImport st (some p) true).wheels = st.wheels) ∧
    (∀ ss, p.sales = ImportField.list ss →
      (handleFileImport st (some p) true).sales = ss) ∧
    ((∀ ss, p.sales ≠ ImportField.list ss) →
      (handleFileImport st (some p) true).sales = st.sales) := by
  refine ⟨fun c => rfl, rfl, ?_, ?_, ?_, ?_⟩
  · intro ws hw
    unfold handleFileImport
    simp [hw]
  · intro hne
    unfold handleFileImport
    cases hpw : p.wheels with
    | absent => simp
    | malformed => simp
    | list ws => exact absurd hpw (hne ws)
  · intro ss hsl
    unfold handleFileImport
    simp [hsl]
  · intro hne
    unfold handleFileImport
    cases hps : p.sales with
    | absent => simp
    | malformed => simp
    | list ss => exact absurd hps (hne ss)

/-- Witness for C9: a payload with a well-formed wheels array and a
malformed sales field replaces only the wheels. -/
theorem import_per_collection_witness :
    handleFileImport ⟨[], [sA]⟩ none true = ⟨[], [sA]⟩ ∧
    handleFileImport ⟨[], [sA]⟩ (some mixPayload) false = ⟨[], [sA]⟩ ∧
    (handleFileImport ⟨[], [sA]⟩ (some mixPayload) true).wheels = [wA] ∧
    (handleFileImport ⟨[], [sA]⟩ (some mixPayload) true).sales
      = (AppState.mk [] [sA]).sales :=
  ⟨(import_per_collection ⟨[], [sA]⟩ mixPayload).1 true,
   (import_per_collection ⟨[], [sA]⟩ mixPayload).2.1,
   (import_per_collection ⟨[], [sA]⟩ mixPayload).2.2.1 [wA] rfl,
   (import_per_collection ⟨[], [sA]⟩ mixPayload).2.2.2.2.2
     (fun ss h => by simp [mixPayload] at h)⟩

end AfnanShop
